import Mathlib

/-
Verification of the DriveX Cast Server (src/server.js) against its
natural-language specification.

The file shallowly embeds the server's in-memory state and its event
handlers as pure Lean functions.  JavaScript objects become structures,
the global sessions Map becomes a function from session keys to optional
session records, socket.io room membership becomes a function from room
names to member lists, and each socket handler becomes a function from
the pre-state to the post-state plus the list of outbound emits.
Timestamps are natural numbers.  JavaScript truthiness tests on strings
that may be empty or undefined are modelled on Option String with the
empty string counted as falsy where the source tests truthiness.
-/

/-- The currentFile record stored by the cast-update handler:
  an object with url, fileName, index and total. -/
structure CastFile where
  url : String
  fileName : String
  index : Nat
  total : Nat
deriving DecidableEq

/-- One entry of a session's viewerInfo array, as built by the
  viewer-joined handler: socketId, viewerId, name, location, joinedAt. -/
structure ViewerData where
  socketId : String
  viewerId : Option String
  name : Option String
  location : Option String
  joinedAt : Nat
deriving DecidableEq

/-- A session record, mirroring the object literals stored into the
  sessions Map by the join handlers. -/
structure Session where
  projector : Option String
  controllers : List String
  viewers : List String
  viewerInfo : List ViewerData
  main : Option String
  host : Option String
  createdAt : Nat
  lastUpdate : Nat
  currentFile : Option CastFile
  fileList : List String
deriving DecidableEq

/-- The role tag written onto a socket by the join handlers. -/
inductive Role
  | projector
  | host
  | main
  | controller
  | viewer
deriving DecidableEq

/-- The mutable fields the server attaches to a cast socket:
  socket.sessionId, socket.role, socket.viewerId, socket.viewerName. -/
structure SocketState where
  sessionId : Option String := none
  role : Option Role := none
  viewerId : Option String := none
  viewerName : Option String := none
deriving DecidableEq

/-- Where an outbound emit is addressed: socket.emit goes to one socket,
  socket.to(room).emit goes to every room member except the sender,
  io.to(room).emit goes to every room member. -/
inductive Target
  | toSocket (socketId : String)
  | toRoomExcept (room : String) (sender : String)
  | toRoom (room : String)
deriving DecidableEq

/-- Payload of the viewer-joined event, with the fields the handler
  destructures; optional fields model possibly-undefined values. -/
structure ViewerJoinedData where
  sessionId : String
  viewerId : Option String
  timestamp : Option Nat
  userAgent : Option String
  viewerName : Option String
  location : Option String
deriving DecidableEq

/-- Payload of the cast-update event. -/
structure CastUpdateData where
  sessionId : String
  url : String
  fileName : String
  index : Nat
  total : Nat
deriving DecidableEq

/-- Payload of the cast-file-list event; file descriptors are opaque. -/
structure CastFileListData where
  sessionId : String
  files : List String
deriving DecidableEq

/-- The payload shapes of outbound emits. -/
inductive Payload
  | empty
  | sessionOnly (sessionId : String)
  | sessionTs (sessionId : String) (timestamp : Nat)
  | socketIdP (socketId : String)
  | viewerCountP (count : Nat) (sessionId : String) (viewers : List ViewerData)
  | viewerJoinedP (d : ViewerJoinedData)
  | viewerAcceptedP (sessionId : String) (viewerId : Option String) (timestamp : Option Nat)
  | viewerNavigateP (sessionId : String) (viewerId : Option String) (index : Option Nat)
      (fileName : Option String)
  | viewerLeftP (viewerId : Option String)
  | castUpdateP (d : CastUpdateData)
  | castFileListP (d : CastFileListData)
  | mutedP (muted : Bool)
  | timeP (time : Nat)
  | slideshowP (enabled : Bool) (interval : Nat)
  | intervalP (interval : Nat)
  | notifyData (data : String)
deriving DecidableEq

/-- An outbound emit: a target, an event name and a payload. -/
structure Emit where
  target : Target
  event : String
  payload : Payload
deriving DecidableEq

/-- The cast-side server state: the sessions Map and socket.io room
  membership (a room holds the socket ids that joined it). -/
structure CastState where
  sessions : String → Option Session
  rooms : String → List String

/-- socket.join(room): add the socket to the room (idempotent). -/
def socketJoin (st : CastState) (room socketId : String) : CastState :=
  { st with rooms := fun r =>
      if r = room then
        if socketId ∈ st.rooms room then st.rooms room else socketId :: st.rooms room
      else st.rooms r }

/-- sessions.set(sessionId, s). -/
def setSession (st : CastState) (sessionId : String) (s : Session) : CastState :=
  { st with sessions := fun k => if k = sessionId then some s else st.sessions k }

/-- sessions.delete(sessionId). -/
def deleteSession (st : CastState) (sessionId : String) : CastState :=
  { st with sessions := fun k => if k = sessionId then none else st.sessions k }

/-- The zero-valued fields shared by the session object literals the
  four creating join handlers store: no roles, empty collections. -/
def freshSession (now : Nat) : Session :=
  { projector := none
    controllers := []
    viewers := []
    viewerInfo := []
    main := none
    host := none
    createdAt := now
    lastUpdate := now
    currentFile := none
    fileList := [] }

/-- Result of running one socket handler: the socket's tag fields, the
  server state, the outbound emits in order, and the session ids for
  which a delayed deletion re-check was scheduled via setTimeout. -/
structure HandlerOut where
  sock : SocketState
  st : CastState
  emits : List Emit
  pending : List String := []

/-- The sendViewerCount helper: reads the session and emits
  viewer-count with the current count and viewerInfo to one socket. -/
def sendViewerCount (sessions : String → Option Session) (socketId sessionId : String) :
    Emit :=
  let count := match sessions sessionId with
    | some s => s.viewers.length
    | none => 0
  let vs := match sessions sessionId with
    | some s => s.viewerInfo
    | none => []
  ⟨Target.toSocket socketId, "viewer-count", Payload.viewerCountP count sessionId vs⟩

/-- Handler for join-projector: join the room, create the session if
  absent (with projector set) or take over the projector slot, tag the
  socket, and announce projector-ready to the rest of the room. -/
def joinProjector (now : Nat) (socketId : String) (sock : SocketState)
    (st : CastState) (sessionId : String) : HandlerOut :=
  let st1 := socketJoin st sessionId socketId
  let st2 := match st.sessions sessionId with
    | none => setSession st1 sessionId { freshSession now with projector := some socketId }
    | some s => setSession st1 sessionId { s with projector := some socketId, lastUpdate := now }
  { sock := { sock with sessionId := some sessionId, role := some Role.projector }
    st := st2
    emits := [⟨Target.toRoomExcept sessionId socketId, "projector-ready",
               Payload.sessionOnly sessionId⟩] }

/-- Handler for register-host: join the room, create the session if
  absent (with host set) or take over the host slot, tag the socket,
  and send the current viewer count to the new host. -/
def registerHost (now : Nat) (socketId : String) (sock : SocketState)
    (st : CastState) (sessionId : String) : HandlerOut :=
  let st1 := socketJoin st sessionId socketId
  let st2 := match st.sessions sessionId with
    | none => setSession st1 sessionId { freshSession now with host := some socketId }
    | some s => setSession st1 sessionId { s with host := some socketId, lastUpdate := now }
  { sock := { sock with sessionId := some sessionId, role := some Role.host }
    st := st2
    emits := [sendViewerCount st2.sessions socketId sessionId] }

/-- Handler for join-controller: join the room, create the session if
  absent (with the controller listed) or add the controller; when the
  session already existed and has a projector, send projector-ready to
  the joiner; then send the viewer count to the joiner and announce
  controller-joined to the rest of the room. -/
def joinController (now : Nat) (socketId : String) (sock : SocketState)
    (st : CastState) (sessionId : String) : HandlerOut :=
  let st1 := socketJoin st sessionId socketId
  let sock2 := { sock with sessionId := some sessionId, role := some Role.controller }
  match st.sessions sessionId with
  | none =>
      let st2 := setSession st1 sessionId { freshSession now with controllers := [socketId] }
      { sock := sock2
        st := st2
        emits := [sendViewerCount st2.sessions socketId sessionId,
                  ⟨Target.toRoomExcept sessionId socketId, "controller-joined",
                   Payload.socketIdP socketId⟩] }
  | some s =>
      let s2 := { s with
        controllers := if socketId ∈ s.controllers then s.controllers
          else s.controllers ++ [socketId]
        lastUpdate := now }
      let st2 := setSession st1 sessionId s2
      let ready := if s.projector.isSome then
          [⟨Target.toSocket socketId, "projector-ready", Payload.sessionTs sessionId now⟩]
        else []
      { sock := sock2
        st := st2
        emits := ready ++ [sendViewerCount st2.sessions socketId sessionId,
                  ⟨Target.toRoomExcept sessionId socketId, "controller-joined",
                   Payload.socketIdP socketId⟩] }

/-- Handler for join-main: join the room, create the session if absent
  (with main set) or take over the main slot; when the session already
  existed and has a projector, send projector-ready to the joiner; then
  send the viewer count to the joiner and announce main-joined. -/
def joinMain (now : Nat) (socketId : String) (sock : SocketState)
    (st : CastState) (sessionId : String) : HandlerOut :=
  let st1 := socketJoin st sessionId socketId
  let sock2 := { sock with sessionId := some sessionId, role := some Role.main }
  match st.sessions sessionId with
  | none =>
      let st2 := setSession st1 sessionId { freshSession now with main := some socketId }
      { sock := sock2
        st := st2
        emits := [sendViewerCount st2.sessions socketId sessionId,
                  ⟨Target.toRoomExcept sessionId socketId, "main-joined",
                   Payload.socketIdP socketId⟩] }
  | some s =>
      let s2 := { s with main := some socketId, lastUpdate := now }
      let st2 := setSession st1 sessionId s2
      let ready := if s.projector.isSome then
          [⟨Target.toSocket socketId, "projector-ready", Payload.sessionTs sessionId now⟩]
        else []
      { sock := sock2
        st := st2
        emits := ready ++ [sendViewerCount st2.sessions socketId sessionId,
                  ⟨Target.toRoomExcept sessionId socketId, "main-joined",
                   Payload.socketIdP socketId⟩] }

/-- Handler for join-room: join the room; only when the declared role is
  controller or main and the session exists does it send projector-ready
  (if a projector is present) and the viewer count to the joiner.  It
  never creates a session and never tags the socket. -/
def joinRoom (now : Nat) (socketId : String) (sock : SocketState)
    (st : CastState) (room : String) (role : String) : HandlerOut :=
  let st1 := socketJoin st room socketId
  if role = "controller" ∨ role = "main" then
    match st.sessions room with
    | some s =>
        let ready := if s.projector.isSome then
            [⟨Target.toSocket socketId, "projector-ready", Payload.sessionTs room now⟩]
          else []
        { sock := sock
          st := st1
          emits := ready ++ [sendViewerCount st1.sessions socketId room] }
    | none => { sock := sock, st := st1, emits := [] }
  else { sock := sock, st := st1, emits := [] }

/-- Handler for ping-projector: answer projector-ready to the asking
  socket exactly when the session exists and its projector slot is
  populated; no state change. -/
def pingProjector (now : Nat) (socketId : String) (st : CastState)
    (sessionId : String) : List Emit :=
  match st.sessions sessionId with
  | some s =>
      if s.projector.isSome then
        [⟨Target.toSocket socketId, "projector-ready", Payload.sessionTs sessionId now⟩]
      else []
  | none => []

/-- A possibly-empty JavaScript string is truthy when present and
  not empty. -/
def strTruthy : Option String → Bool
  | none => false
  | some s => s ≠ ""

/-- The x or-null idiom: an empty or absent string is stored as null. -/
def strOrNull (x : Option String) : Option String :=
  match x with
  | some s => if s = "" then none else some s
  | none => none

/-- Replace the entry whose socketId matches (at its first occurrence,
  as findIndex plus assignment does), or append when absent. -/
def upsertViewerInfo : List ViewerData → ViewerData → List ViewerData
  | [], vd => [vd]
  | v :: rest, vd =>
      if v.socketId = vd.socketId then vd :: rest else v :: upsertViewerInfo rest vd

/-- The viewerInfo entry the viewer-joined handler builds: socket id,
  viewer id, optional name and location (empty treated as null), and a
  joinedAt stamp defaulting to the current time when the supplied
  timestamp is falsy. -/
def viewerEntry (now : Nat) (socketId : String) (d : ViewerJoinedData) : ViewerData :=
  { socketId := socketId
    viewerId := d.viewerId
    name := strOrNull d.viewerName
    location := strOrNull d.location
    joinedAt := match d.timestamp with
      | some t => if t = 0 then now else t
      | none => now }

/-- Handler for viewer-joined: join the room; when the session exists,
  add the socket to viewers (no duplicates), upsert its viewerInfo entry
  keyed by socket id, stamp lastUpdate and broadcast viewer-count to the
  whole room; tag the socket; relay the raw payload to the others. -/
def viewerJoined (now : Nat) (socketId : String) (sock : SocketState)
    (st : CastState) (d : ViewerJoinedData) : HandlerOut :=
  let st1 := socketJoin st d.sessionId socketId
  let sock2 := { sock with
    sessionId := some d.sessionId
    role := some Role.viewer
    viewerId := d.viewerId
    viewerName := d.viewerName }
  let relay : Emit :=
    ⟨Target.toRoomExcept d.sessionId socketId, "viewer-joined", Payload.viewerJoinedP d⟩
  match st.sessions d.sessionId with
  | some s =>
      let viewers2 := if socketId ∈ s.viewers then s.viewers else s.viewers ++ [socketId]
      let info2 := upsertViewerInfo s.viewerInfo (viewerEntry now socketId d)
      let s2 := { s with viewers := viewers2, viewerInfo := info2, lastUpdate := now }
      let st2 := setSession st1 d.sessionId s2
      { sock := sock2
        st := st2
        emits := [⟨Target.toRoom d.sessionId, "viewer-count",
                   Payload.viewerCountP viewers2.length d.sessionId info2⟩, relay] }
  | none => { sock := sock2, st := st1, emits := [relay] }

/-- Handler for viewer-accepted: pure relay to the rest of the room. -/
def viewerAccepted (socketId : String) (sock : SocketState) (st : CastState)
    (sessionId : String) (viewerId : Option String) (timestamp : Option Nat) : HandlerOut :=
  { sock := sock
    st := st
    emits := [⟨Target.toRoomExcept sessionId socketId, "viewer-accepted",
               Payload.viewerAcceptedP sessionId viewerId timestamp⟩] }

/-- Handler for viewer-navigate: pure relay to the rest of the room. -/
def viewerNavigate (socketId : String) (sock : SocketState) (st : CastState)
    (sessionId : String) (viewerId : Option String) (index : Option Nat)
    (fileName : Option String) : HandlerOut :=
  { sock := sock
    st := st
    emits := [⟨Target.toRoomExcept sessionId socketId, "viewer-navigate",
               Payload.viewerNavigateP sessionId viewerId index fileName⟩] }

/-- Handler for cast-update: when the session exists, store currentFile
  and stamp lastUpdate; always relay the payload to the rest of the
  room. -/
def castUpdate (now : Nat) (socketId : String) (sock : SocketState)
    (st : CastState) (d : CastUpdateData) : HandlerOut :=
  let st2 := match st.sessions d.sessionId with
    | some s => setSession st d.sessionId
        { s with currentFile := some ⟨d.url, d.fileName, d.index, d.total⟩, lastUpdate := now }
    | none => st
  { sock := sock
    st := st2
    emits := [⟨Target.toRoomExcept d.sessionId socketId, "cast-update",
               Payload.castUpdateP d⟩] }

/-- Handler for cast-file-list: when the session exists, replace its
  fileList; always relay the payload to the rest of the room. -/
def castFileList (socketId : String) (sock : SocketState) (st : CastState)
    (d : CastFileListData) : HandlerOut :=
  let st2 := match st.sessions d.sessionId with
    | some s => setSession st d.sessionId { s with fileList := d.files }
    | none => st
  { sock := sock
    st := st2
    emits := [⟨Target.toRoomExcept d.sessionId socketId, "cast-file-list",
               Payload.castFileListP d⟩] }

/-- Handler for cast-stop: when the session exists, clear currentFile
  and fileList; always relay a bare cast-stop to the rest of the room. -/
def castStop (socketId : String) (sock : SocketState) (st : CastState)
    (sessionId : String) : HandlerOut :=
  let st2 := match st.sessions sessionId with
    | some s => setSession st sessionId { s with currentFile := none, fileList := [] }
    | none => st
  { sock := sock
    st := st2
    emits := [⟨Target.toRoomExcept sessionId socketId, "cast-stop", Payload.empty⟩] }

/-- Handler for video-play: pure relay. -/
def videoPlay (socketId : String) (sock : SocketState) (st : CastState)
    (sessionId : String) : HandlerOut :=
  { sock := sock
    st := st
    emits := [⟨Target.toRoomExcept sessionId socketId, "video-play", Payload.empty⟩] }

/-- Handler for video-pause: pure relay. -/
def videoPause (socketId : String) (sock : SocketState) (st : CastState)
    (sessionId : String) : HandlerOut :=
  { sock := sock
    st := st
    emits := [⟨Target.toRoomExcept sessionId socketId, "video-pause", Payload.empty⟩] }

/-- Handler for video-mute: pure relay of the muted flag. -/
def videoMute (socketId : String) (sock : SocketState) (st : CastState)
    (sessionId : String) (muted : Bool) : HandlerOut :=
  { sock := sock
    st := st
    emits := [⟨Target.toRoomExcept sessionId socketId, "video-mute", Payload.mutedP muted⟩] }

/-- Handler for video-seek: pure relay of the seek time. -/
def videoSeek (socketId : String) (sock : SocketState) (st : CastState)
    (sessionId : String) (time : Nat) : HandlerOut :=
  { sock := sock
    st := st
    emits := [⟨Target.toRoomExcept sessionId socketId, "video-seek", Payload.timeP time⟩] }

/-- Handler for slideshow-toggle: relays as slideshow-control. -/
def slideshowToggle (socketId : String) (sock : SocketState) (st : CastState)
    (sessionId : String) (enabled : Bool) (interval : Nat) : HandlerOut :=
  { sock := sock
    st := st
    emits := [⟨Target.toRoomExcept sessionId socketId, "slideshow-control",
               Payload.slideshowP enabled interval⟩] }

/-- Handler for slideshow-control: relays as slideshow-control. -/
def slideshowControl (socketId : String) (sock : SocketState) (st : CastState)
    (sessionId : String) (enabled : Bool) (interval : Nat) : HandlerOut :=
  { sock := sock
    st := st
    emits := [⟨Target.toRoomExcept sessionId socketId, "slideshow-control",
               Payload.slideshowP enabled interval⟩] }

/-- Handler for slideshow-interval: relays the interval. -/
def slideshowInterval (socketId : String) (sock : SocketState) (st : CastState)
    (sessionId : String) (interval : Nat) : HandlerOut :=
  { sock := sock
    st := st
    emits := [⟨Target.toRoomExcept sessionId socketId, "slideshow-interval",
               Payload.intervalP interval⟩] }

/-- The disconnect handler, dispatching on the socket's tagged role.
  The outer truthiness test on socket.sessionId makes an absent (or
  empty) session tag a no-op.  The projector branch broadcasts
  projector-disconnected and deletes the session; the host branch
  broadcasts cast-stop, clears cast state and the host slot and
  schedules a delayed re-check (recorded in pending); the main branch
  broadcasts cast-stop and clears currentFile and the main slot; the
  viewer branch prunes viewers and viewerInfo and broadcasts the new
  count; any other role is removed from controllers. -/
def onDisconnect (socketId : String) (sock : SocketState) (st : CastState) : HandlerOut :=
  match sock.sessionId with
  | none => { sock := sock, st := st, emits := [] }
  | some sid =>
    if sid = "" then { sock := sock, st := st, emits := [] }
    else
      match st.sessions sid with
      | none => { sock := sock, st := st, emits := [] }
      | some session =>
        match sock.role with
        | some Role.projector =>
            { sock := sock
              st := deleteSession st sid
              emits := [⟨Target.toRoomExcept sid socketId, "projector-disconnected",
                         Payload.empty⟩] }
        | some Role.host =>
            { sock := sock
              st := setSession st sid
                { session with currentFile := none, fileList := [], host := none }
              emits := [⟨Target.toRoomExcept sid socketId, "cast-stop", Payload.empty⟩]
              pending := [sid] }
        | some Role.main =>
            { sock := sock
              st := setSession st sid { session with currentFile := none, main := none }
              emits := [⟨Target.toRoomExcept sid socketId, "cast-stop", Payload.empty⟩] }
        | some Role.viewer =>
            let s2 := { session with
              viewers := session.viewers.filter (fun id => id ≠ socketId)
              viewerInfo := session.viewerInfo.filter (fun v => v.socketId ≠ socketId) }
            { sock := sock
              st := setSession st sid s2
              emits := [⟨Target.toRoom sid, "viewer-count",
                         Payload.viewerCountP s2.viewers.length sid s2.viewerInfo⟩,
                        ⟨Target.toRoomExcept sid socketId, "viewer-left",
                         Payload.viewerLeftP sock.viewerId⟩] }
        | _ =>
            { sock := sock
              st := setSession st sid
                { session with controllers := session.controllers.filter (fun id => id ≠ socketId) }
              emits := [] }

/-- The body of the setTimeout scheduled on host disconnect: delete the
  session only if it still exists and has no projector, host or main. -/
def hostRecheck (st : CastState) (sid : String) : CastState :=
  match st.sessions sid with
  | some s =>
      if s.projector = none ∧ s.host = none ∧ s.main = none then deleteSession st sid
      else st
  | none => st

/-- The periodic stale-session sweep: delete every session with no
  projector and no host whose createdAt is more than ten minutes old. -/
def sweep (now : Nat) (st : CastState) : CastState :=
  { st with sessions := fun sid =>
      match st.sessions sid with
      | some s =>
          if s.projector.isNone ∧ s.host.isNone ∧ now - s.createdAt > 10 * 60 * 1000 then none
          else some s
      | none => none }

/-- State of the notifications namespace: the two subscriber-set maps
  (a key with no sockets behaves as absent) and room membership. -/
structure NotifyState where
  byUserId : String → List String
  byEmail : String → List String
  rooms : String → List String

/-- Add a socket id to the set held at a key. -/
def addToSet (f : String → List String) (k v : String) : String → List String :=
  fun k2 => if k2 = k then (if v ∈ f k then f k else v :: f k) else f k2

/-- The notifications-namespace connection handler for a socket whose
  verified identity carries userId and the lower-cased email: register
  the socket in the subscriber sets and join the per-user and per-email
  rooms (each part only when the value is truthy). -/
def notifyConnect (socketId : String) (userId email : Option String)
    (ns : NotifyState) : NotifyState :=
  let ns1 := match userId with
    | some uid =>
        if uid = "" then ns
        else { ns with
          byUserId := addToSet ns.byUserId uid socketId
          rooms := addToSet ns.rooms ("user:" ++ uid) socketId }
    | none => ns
  match email with
  | some em =>
      if em = "" then ns1
      else { ns1 with
        byEmail := addToSet ns1.byEmail em socketId
        rooms := addToSet ns1.rooms ("email:" ++ em) socketId }
  | none => ns1

/-- Body of a POST /notify request. -/
structure NotifyReq where
  secret : Option String
  event : String
  userId : Option String
  email : Option String
  data : String
deriving DecidableEq

/-- Response of POST /notify: a 401 or a success with delivered count. -/
inductive NotifyRes
  | unauthorized
  | ok (delivered : Nat)
deriving DecidableEq

/-- The POST /notify handler: when a truthy server secret is configured
  and the supplied secret differs, answer unauthorized with no emits;
  otherwise emit the event to the per-user room and to the per-email
  (lower-cased) room, for whichever of userId and email are truthy, and
  answer with the summed subscriber-set sizes. -/
def notify (notifySecret : Option String) (ns : NotifyState) (req : NotifyReq) :
    NotifyRes × List Emit :=
  if strTruthy notifySecret ∧ req.secret ≠ notifySecret then
    (NotifyRes.unauthorized, [])
  else
    let u : List Emit × Nat := match req.userId with
      | some uid =>
          if uid = "" then ([], 0)
          else ([⟨Target.toRoom ("user:" ++ uid), req.event, Payload.notifyData req.data⟩],
                (ns.byUserId uid).length)
      | none => ([], 0)
    let e : List Emit × Nat := match req.email with
      | some em =>
          if em = "" then ([], 0)
          else
            let nm := em.toLower
            ([⟨Target.toRoom ("email:" ++ nm), req.event, Payload.notifyData req.data⟩],
             (ns.byEmail nm).length)
      | none => ([], 0)
    (NotifyRes.ok (u.2 + e.2), u.1 ++ e.1)

/-- A cast state with no sessions and empty rooms. -/
def emptyCast : CastState := ⟨fun _ => none, fun _ => []⟩

/-- A notification state with no subscribers and empty rooms. -/
def emptyNotify : NotifyState := ⟨fun _ => [], fun _ => [], fun _ => []⟩

/-- A notification state after one authenticated connection n1 for user
  u1 (no email). -/
def notifyStateU1 : NotifyState := notifyConnect "n1" (some "u1") none emptyNotify

/-- A session whose projector slot holds p, otherwise zero-valued. -/
def sessP : Session := { freshSession 0 with projector := some "p" }

/-- A cast state holding only session sp with a populated projector. -/
def stP : CastState := ⟨fun sid => if sid = "sp" then some sessP else none, fun _ => []⟩

/-- A session with one viewer v1 and its metadata entry. -/
def sessV : Session :=
  { freshSession 0 with viewers := ["v1"], viewerInfo := [⟨"v1", some "vid1", none, none, 0⟩] }

/-- A cast state holding only session sv with one viewer. -/
def stV : CastState := ⟨fun sid => if sid = "sv" then some sessV else none, fun _ => []⟩

/-- A session whose main slot is populated but projector and host are
  empty, created at time zero. -/
def sessMain : Session := { freshSession 0 with main := some "m" }

/-- A cast state holding only session sm whose main slot is populated. -/
def stMain : CastState := ⟨fun sid => if sid = "sm" then some sessMain else none, fun _ => []⟩

/-- A session under the empty-string key whose projector slot holds e. -/
def sessEmptyKeyP : Session := { freshSession 0 with projector := some "e" }

/-- A cast state holding only the empty-string session with a
  projector. -/
def stEmptyKeyP : CastState :=
  ⟨fun sid => if sid = "" then some sessEmptyKeyP else none, fun _ => []⟩

/-- A session under the empty-string key whose host slot holds h, with
  a stored currentFile. -/
def sessEmptyKeyH : Session :=
  { freshSession 0 with host := some "h", currentFile := some ⟨"u", "f", 0, 1⟩ }

/-- A cast state holding only the empty-string session with a host. -/
def stEmptyKeyH : CastState :=
  ⟨fun sid => if sid = "" then some sessEmptyKeyH else none, fun _ => []⟩

/-- Claim C1 counterexample: with the server-held secret configured to
  the empty string (a falsy configuration), a call whose secret does not
  match is not rejected: it returns success and emits the event to the
  user room, which contains the subscribed connection n1. -/
theorem notify_falsy_secret_bypass :
    notify (some "") notifyStateU1 ⟨some "wrong", "share", some "u1", none, "d"⟩ =
      (NotifyRes.ok 1,
       [⟨Target.toRoom "user:u1", "share", Payload.notifyData "d"⟩]) ∧
    "n1" ∈ notifyStateU1.rooms "user:u1" := by
  constructor
  · rfl
  · decide

/-- Claim C1 (amended): when the server-held shared secret is configured
  non-empty, every call to the notification trigger whose secret does
  not exactly match it is rejected as unauthorized and no event is
  emitted to any room, so no connection receives a delivery. -/
theorem notify_wrong_secret_rejected (s : String) (ns : NotifyState) (req : NotifyReq)
    (hs : s ≠ "") (hm : req.secret ≠ some s) :
    notify (some s) ns req = (NotifyRes.unauthorized, []) := by
  simp [notify, strTruthy, hs, hm]

/-- Claim C1 witness: the amended theorem applied at a concrete secret,
  state and request. -/
theorem notify_wrong_secret_rejected_witness :
    notify (some "sek") emptyNotify ⟨some "bad", "ev", some "u", none, "d"⟩ =
      (NotifyRes.unauthorized, []) :=
  notify_wrong_secret_rejected "sek" emptyNotify ⟨some "bad", "ev", some "u", none, "d"⟩
    (by decide) (by decide)

/-- Claim C2 counterexample: a viewer-joined event and a join-room event
  referencing the unseen session key s1 do not create a session record;
  the registry still has no entry for s1 afterwards. -/
theorem viewer_joined_join_room_do_not_create :
    (viewerJoined 5 "v" {} emptyCast ⟨"s1", some "vid", none, none, none, none⟩).st.sessions "s1"
      = none ∧
    (joinRoom 5 "c" {} emptyCast "s1" "controller").st.sessions "s1" = none := by
  constructor
  · rfl
  · rfl

/-- Claim C2 (amended): join-projector, register-host, join-controller
  and join-main create a fresh session record (zero-valued apart from
  the joining role) for an unseen session key before their other
  effects; join-room and viewer-joined never create a session, leaving
  the registry unchanged when the key is absent. -/
theorem join_creates_session (now : Nat) (socketId : String) (sock : SocketState)
    (st : CastState) (sid : String) (role : String) (d : ViewerJoinedData)
    (h : st.sessions sid = none) (hd : st.sessions d.sessionId = none) :
    (joinProjector now socketId sock st sid).st.sessions sid =
      some { freshSession now with projector := some socketId } ∧
    (registerHost now socketId sock st sid).st.sessions sid =
      some { freshSession now with host := some socketId } ∧
    (joinController now socketId sock st sid).st.sessions sid =
      some { freshSession now with controllers := [socketId] } ∧
    (joinMain now socketId sock st sid).st.sessions sid =
      some { freshSession now with main := some socketId } ∧
    (joinRoom now socketId sock st sid role).st.sessions = st.sessions ∧
    (viewerJoined now socketId sock st d).st.sessions = st.sessions := by
  refine ⟨?_, ?_, ?_, ?_, ?_, ?_⟩
  · simp [joinProjector, h, setSession, socketJoin]
  · simp [registerHost, h, setSession, socketJoin]
  · simp [joinController, h, setSession, socketJoin]
  · simp [joinMain, h, setSession, socketJoin]
  · simp only [joinRoom, socketJoin]
    split
    · split <;> rfl
    · rfl
  · simp [viewerJoined, hd, socketJoin]

/-- Claim C2 witness: the amended theorem applied to an empty registry
  at concrete inputs. -/
theorem join_creates_session_witness :
    (joinProjector 7 "x" {} emptyCast "k").st.sessions "k" =
      some { freshSession 7 with projector := some "x" } ∧
    (registerHost 7 "x" {} emptyCast "k").st.sessions "k" =
      some { freshSession 7 with host := some "x" } ∧
    (joinController 7 "x" {} emptyCast "k").st.sessions "k" =
      some { freshSession 7 with controllers := ["x"] } ∧
    (joinMain 7 "x" {} emptyCast "k").st.sessions "k" =
      some { freshSession 7 with main := some "x" } ∧
    (joinRoom 7 "x" {} emptyCast "k" "controller").st.sessions = emptyCast.sessions ∧
    (viewerJoined 7 "x" {} emptyCast ⟨"k", none, none, none, none, none⟩).st.sessions =
      emptyCast.sessions :=
  join_creates_session 7 "x" {} emptyCast "k" "controller"
    ⟨"k", none, none, none, none, none⟩ rfl rfl

/-- Claim C3 (amended): a connection that disconnects while tagged with
  role projector and a non-empty session key present in the registry
  causes projector-disconnected to be broadcast to the rest of the
  session and the session record to be deleted unconditionally, so a
  subsequent ping-projector for that id produces no projector-ready
  response; the empty-string key is exempt because the disconnect
  dispatch treats a falsy session tag as no tag. -/
theorem projector_disconnect_deletes_session (socketId : String) (sock : SocketState)
    (st : CastState) (sid : String) (s : Session)
    (h0 : sid ≠ "") (h1 : sock.sessionId = some sid) (h2 : sock.role = some Role.projector)
    (hs : st.sessions sid = some s) :
    (onDisconnect socketId sock st).st.sessions sid = none ∧
    (onDisconnect socketId sock st).emits =
      [⟨Target.toRoomExcept sid socketId, "projector-disconnected", Payload.empty⟩] ∧
    ∀ now pingSocket,
      pingProjector now pingSocket (onDisconnect socketId sock st).st sid = [] := by
  refine ⟨?_, ?_, ?_⟩
  · simp [onDisconnect, h0, h1, h2, hs, deleteSession]
  · simp [onDisconnect, h0, h1, h2, hs]
  · intro now pingSocket
    simp [onDisconnect, h0, h1, h2, hs, deleteSession, pingProjector]

/-- Claim C3 witness: the theorem applied to the concrete state stP
  whose session sp has projector p, with p's socket tagged projector. -/
theorem projector_disconnect_deletes_session_witness :
    (onDisconnect "p" ⟨some "sp", some Role.projector, none, none⟩ stP).st.sessions "sp" =
      none ∧
    (onDisconnect "p" ⟨some "sp", some Role.projector, none, none⟩ stP).emits =
      [⟨Target.toRoomExcept "sp" "p", "projector-disconnected", Payload.empty⟩] ∧
    ∀ now pingSocket,
      pingProjector now pingSocket
        (onDisconnect "p" ⟨some "sp", some Role.projector, none, none⟩ stP).st "sp" = [] :=
  projector_disconnect_deletes_session "p" ⟨some "sp", some Role.projector, none, none⟩
    stP "sp" sessP (by decide) rfl rfl rfl

/-- Claim C4 counterexample: the sweep deletes the session sm even
  though its main slot is populated, because the code only tests the
  projector and host slots before comparing createdAt with the
  retention window. -/
theorem sweep_deletes_session_with_main :
    stMain.sessions "sm" = some sessMain ∧
    sessMain.main = some "m" ∧
    (sweep 600001 stMain).sessions "sm" = none := by
  refine ⟨rfl, rfl, ?_⟩
  decide

/-- Claim C4 (amended): the periodic sweep keeps a session exactly when
  it is present and it is not the case that both its projector and host
  slots are empty and its createdAt predates the 10-minute retention
  window; the main slot, controllers and viewers play no part in the
  predicate, so a session whose only populated slot is main is deleted
  once old enough. -/
theorem sweep_spec (now : Nat) (st : CastState) (sid : String) (s : Session) :
    (sweep now st).sessions sid = some s ↔
      st.sessions sid = some s ∧
        ¬(s.projector.isNone ∧ s.host.isNone ∧ now - s.createdAt > 10 * 60 * 1000) := by
  unfold sweep
  cases h : st.sessions sid with
  | none => simp [h]
  | some s0 =>
      simp only [h]
      by_cases hc : s0.projector.isNone ∧ s0.host.isNone ∧ now - s0.createdAt > 10 * 60 * 1000
      · simp only [if_pos hc]
        constructor
        · intro hfalse
          exact absurd hfalse (by simp)
        · rintro ⟨heq, hn⟩
          obtain rfl : s0 = s := Option.some.inj heq
          exact absurd hc hn
      · simp only [if_neg hc]
        constructor
        · intro heq
          obtain rfl : s0 = s := Option.some.inj heq
          exact ⟨rfl, hc⟩
        · rintro ⟨heq, _⟩
          exact heq

/-- Claim C10: every relay handler whose sessionId has no entry in the
  session registry leaves the whole server state unchanged yet still
  forwards its outbound payload to all other connections joined to that
  room; the relay is not suppressed by the absence of a session
  record. -/
theorem relay_ignores_missing_session (now : Nat) (socketId : String) (sock : SocketState)
    (st : CastState) (sid : String) (url fileName : String) (index total : Nat)
    (files : List String) (viewerId : Option String) (timestamp : Option Nat)
    (navIndex : Option Nat) (navFile : Option String) (muted : Bool) (time : Nat)
    (enabled : Bool) (interval : Nat)
    (h : st.sessions sid = none) :
    castUpdate now socketId sock st ⟨sid, url, fileName, index, total⟩ =
      ⟨sock, st, [⟨Target.toRoomExcept sid socketId, "cast-update",
        Payload.castUpdateP ⟨sid, url, fileName, index, total⟩⟩], []⟩ ∧
    castFileList socketId sock st ⟨sid, files⟩ =
      ⟨sock, st, [⟨Target.toRoomExcept sid socketId, "cast-file-list",
        Payload.castFileListP ⟨sid, files⟩⟩], []⟩ ∧
    castStop socketId sock st sid =
      ⟨sock, st, [⟨Target.toRoomExcept sid socketId, "cast-stop", Payload.empty⟩], []⟩ ∧
    viewerAccepted socketId sock st sid viewerId timestamp =
      ⟨sock, st, [⟨Target.toRoomExcept sid socketId, "viewer-accepted",
        Payload.viewerAcceptedP sid viewerId timestamp⟩], []⟩ ∧
    viewerNavigate socketId sock st sid viewerId navIndex navFile =
      ⟨sock, st, [⟨Target.toRoomExcept sid socketId, "viewer-navigate",
        Payload.viewerNavigateP sid viewerId navIndex navFile⟩], []⟩ ∧
    videoPlay socketId sock st sid =
      ⟨sock, st, [⟨Target.toRoomExcept sid socketId, "video-play", Payload.empty⟩], []⟩ ∧
    videoPause socketId sock st sid =
      ⟨sock, st, [⟨Target.toRoomExcept sid socketId, "video-pause", Payload.empty⟩], []⟩ ∧
    videoMute socketId sock st sid muted =
      ⟨sock, st, [⟨Target.toRoomExcept sid socketId, "video-mute",
        Payload.mutedP muted⟩], []⟩ ∧
    videoSeek socketId sock st sid time =
      ⟨sock, st, [⟨Target.toRoomExcept sid socketId, "video-seek",
        Payload.timeP time⟩], []⟩ ∧
    slideshowToggle socketId sock st sid enabled interval =
      ⟨sock, st, [⟨Target.toRoomExcept sid socketId, "slideshow-control",
        Payload.slideshowP enabled interval⟩], []⟩ ∧
    slideshowControl socketId sock st sid enabled interval =
      ⟨sock, st, [⟨Target.toRoomExcept sid socketId, "slideshow-control",
        Payload.slideshowP enabled interval⟩], []⟩ ∧
    slideshowInterval socketId sock st sid interval =
      ⟨sock, st, [⟨Target.toRoomExcept sid socketId, "slideshow-interval",
        Payload.intervalP interval⟩], []⟩ := by
  refine ⟨?_, ?_, ?_, rfl, rfl, rfl, rfl, rfl, rfl, rfl, rfl, rfl⟩
  · simp [castUpdate, h]
  · simp [castFileList, h]
  · simp [castStop, h]

/-- Claim C10 witness: the theorem applied to the empty registry at
  concrete inputs. -/
theorem relay_ignores_missing_session_witness :
    castUpdate 3 "a" {} emptyCast ⟨"s", "u", "f", 0, 2⟩ =
      ⟨{}, emptyCast, [⟨Target.toRoomExcept "s" "a", "cast-update",
        Payload.castUpdateP ⟨"s", "u", "f", 0, 2⟩⟩], []⟩ ∧
    castFileList "a" {} emptyCast ⟨"s", ["f1"]⟩ =
      ⟨{}, emptyCast, [⟨Target.toRoomExcept "s" "a", "cast-file-list",
        Payload.castFileListP ⟨"s", ["f1"]⟩⟩], []⟩ ∧
    castStop "a" {} emptyCast "s" =
      ⟨{}, emptyCast, [⟨Target.toRoomExcept "s" "a", "cast-stop", Payload.empty⟩], []⟩ ∧
    viewerAccepted "a" {} emptyCast "s" (some "v") (some 1) =
      ⟨{}, emptyCast, [⟨Target.toRoomExcept "s" "a", "viewer-accepted",
        Payload.viewerAcceptedP "s" (some "v") (some 1)⟩], []⟩ ∧
    viewerNavigate "a" {} emptyCast "s" (some "v") (some 1) (some "f") =
      ⟨{}, emptyCast, [⟨Target.toRoomExcept "s" "a", "viewer-navigate",
        Payload.viewerNavigateP "s" (some "v") (some 1) (some "f")⟩], []⟩ ∧
    videoPlay "a" {} emptyCast "s" =
      ⟨{}, emptyCast, [⟨Target.toRoomExcept "s" "a", "video-play", Payload.empty⟩], []⟩ ∧
    videoPause "a" {} emptyCast "s" =
      ⟨{}, emptyCast, [⟨Target.toRoomExcept "s" "a", "video-pause", Payload.empty⟩], []⟩ ∧
    videoMute "a" {} emptyCast "s" true =
      ⟨{}, emptyCast, [⟨Target.toRoomExcept "s" "a", "video-mute",
        Payload.mutedP true⟩], []⟩ ∧
    videoSeek "a" {} emptyCast "s" 9 =
      ⟨{}, emptyCast, [⟨Target.toRoomExcept "s" "a", "video-seek",
        Payload.timeP 9⟩], []⟩ ∧
    slideshowToggle "a" {} emptyCast "s" true 4 =
      ⟨{}, emptyCast, [⟨Target.toRoomExcept "s" "a", "slideshow-control",
        Payload.slideshowP true 4⟩], []⟩ ∧
    slideshowControl "a" {} emptyCast "s" true 4 =
      ⟨{}, emptyCast, [⟨Target.toRoomExcept "s" "a", "slideshow-control",
        Payload.slideshowP true 4⟩], []⟩ ∧
    slideshowInterval "a" {} emptyCast "s" 4 =
      ⟨{}, emptyCast, [⟨Target.toRoomExcept "s" "a", "slideshow-interval",
        Payload.intervalP 4⟩], []⟩ :=
  relay_ignores_missing_session 3 "a" {} emptyCast "s" "u" "f" 0 2 ["f1"]
    (some "v") (some 1) (some 1) (some "f") true 9 true 4 rfl

/-- Claim C5 counterexample: a join-room event with declared role
  viewer arrives while session sp's projector slot is populated, yet
  nothing at all is emitted, so no projector-ready reaches the joiner. -/
theorem join_room_other_role_no_ready :
    stP.sessions "sp" = some sessP ∧
    sessP.projector = some "p" ∧
    (joinRoom 9 "z" {} stP "sp" "viewer").emits = [] :=
  ⟨rfl, rfl, by decide⟩

/-- Claim C5 (amended): a controller join, a main join, or a room-join
  declaring role controller or main, arriving while the referenced
  session exists with a populated projector slot, immediately emits
  exactly one projector-ready event, addressed to the joining
  connection only; room-joins declaring any other role emit none. -/
theorem projector_ready_to_joiner_only (now : Nat) (socketId : String) (sock : SocketState)
    (st : CastState) (sid : String) (s : Session) (p : String) (role : String)
    (hs : st.sessions sid = some s) (hp : s.projector = some p)
    (hrole : role = "controller" ∨ role = "main") :
    (joinController now socketId sock st sid).emits.filter
        (fun e => e.event == "projector-ready") =
      [⟨Target.toSocket socketId, "projector-ready", Payload.sessionTs sid now⟩] ∧
    (joinMain now socketId sock st sid).emits.filter
        (fun e => e.event == "projector-ready") =
      [⟨Target.toSocket socketId, "projector-ready", Payload.sessionTs sid now⟩] ∧
    (joinRoom now socketId sock st sid role).emits.filter
        (fun e => e.event == "projector-ready") =
      [⟨Target.toSocket socketId, "projector-ready", Payload.sessionTs sid now⟩] := by
  refine ⟨?_, ?_, ?_⟩
  · simp [joinController, hs, hp, sendViewerCount, setSession, socketJoin,
      List.filter_cons]
  · simp [joinMain, hs, hp, sendViewerCount, setSession, socketJoin, List.filter_cons]
  · rcases hrole with h | h <;>
      simp [joinRoom, h, hs, hp, sendViewerCount, socketJoin, List.filter_cons]

/-- Claim C5 witness: the amended theorem applied to the concrete state
  stP whose session sp has a populated projector. -/
theorem projector_ready_to_joiner_only_witness :
    (joinController 2 "c" {} stP "sp").emits.filter
        (fun e => e.event == "projector-ready") =
      [⟨Target.toSocket "c", "projector-ready", Payload.sessionTs "sp" 2⟩] ∧
    (joinMain 2 "c" {} stP "sp").emits.filter
        (fun e => e.event == "projector-ready") =
      [⟨Target.toSocket "c", "projector-ready", Payload.sessionTs "sp" 2⟩] ∧
    (joinRoom 2 "c" {} stP "sp" "controller").emits.filter
        (fun e => e.event == "projector-ready") =
      [⟨Target.toSocket "c", "projector-ready", Payload.sessionTs "sp" 2⟩] :=
  projector_ready_to_joiner_only 2 "c" {} stP "sp" sessP "p" "controller"
    rfl rfl (Or.inl rfl)

/-- Claim C6 counterexample: a join-room event with declared role guest
  on session sv, which has one viewer, emits nothing at all, so no
  viewer-count reaches the joiner; the claimed role-independence of the
  room-join path fails. -/
theorem join_room_other_role_no_viewer_count :
    stV.sessions "sv" = some sessV ∧
    sessV.viewers = ["v1"] ∧
    (joinRoom 4 "q" {} stV "sv" "guest").emits = [] :=
  ⟨rfl, rfl, by decide⟩

/-- Claim C6 (amended): on every controller, main or host join the
  current viewer count plus full viewer metadata list is emitted to the
  joining connection -- with count zero and an empty list when the join
  itself creates the session; a room-join does the same exactly when
  its declared role is controller or main and the session exists, and
  emits nothing otherwise. -/
theorem viewer_count_to_joiner (now : Nat) (socketId : String) (sock : SocketState)
    (st : CastState) (sid : String) (okRole badRole : String)
    (hok : okRole = "controller" ∨ okRole = "main")
    (hbad : ¬(badRole = "controller" ∨ badRole = "main")) :
    (∀ s : Session, st.sessions sid = some s →
      (registerHost now socketId sock st sid).emits =
        [⟨Target.toSocket socketId, "viewer-count",
          Payload.viewerCountP s.viewers.length sid s.viewerInfo⟩] ∧
      ⟨Target.toSocket socketId, "viewer-count",
        Payload.viewerCountP s.viewers.length sid s.viewerInfo⟩ ∈
          (joinController now socketId sock st sid).emits ∧
      ⟨Target.toSocket socketId, "viewer-count",
        Payload.viewerCountP s.viewers.length sid s.viewerInfo⟩ ∈
          (joinMain now socketId sock st sid).emits ∧
      ⟨Target.toSocket socketId, "viewer-count",
        Payload.viewerCountP s.viewers.length sid s.viewerInfo⟩ ∈
          (joinRoom now socketId sock st sid okRole).emits) ∧
    (st.sessions sid = none →
      (registerHost now socketId sock st sid).emits =
        [⟨Target.toSocket socketId, "viewer-count", Payload.viewerCountP 0 sid []⟩] ∧
      ⟨Target.toSocket socketId, "viewer-count", Payload.viewerCountP 0 sid []⟩ ∈
        (joinController now socketId sock st sid).emits ∧
      ⟨Target.toSocket socketId, "viewer-count", Payload.viewerCountP 0 sid []⟩ ∈
        (joinMain now socketId sock st sid).emits ∧
      (joinRoom now socketId sock st sid okRole).emits = []) ∧
    (joinRoom now socketId sock st sid badRole).emits = [] := by
  refine ⟨?_, ?_, ?_⟩
  · intro s hs
    refine ⟨?_, ?_, ?_, ?_⟩
    · simp [registerHost, hs, sendViewerCount, setSession, socketJoin]
    · simp [joinController, hs, sendViewerCount, setSession, socketJoin]
    · simp [joinMain, hs, sendViewerCount, setSession, socketJoin]
    · rcases hok with h | h <;>
        simp [joinRoom, h, hs, sendViewerCount, socketJoin]
  · intro hn
    refine ⟨?_, ?_, ?_, ?_⟩
    · simp [registerHost, hn, sendViewerCount, setSession, socketJoin, freshSession]
    · simp [joinController, hn, sendViewerCount, setSession, socketJoin, freshSession]
    · simp [joinMain, hn, sendViewerCount, setSession, socketJoin, freshSession]
    · rcases hok with h | h <;> simp [joinRoom, h, hn]
  · simp only [joinRoom]
    rw [if_neg hbad]

/-- Claim C6 witness: the amended theorem applied once to the concrete
  state stV whose session sv has one viewer and once to the empty
  registry, where the creating joins emit count zero; the room-join
  cases cover an existing session, a missing session, and a declared
  role outside controller and main. -/
theorem viewer_count_to_joiner_witness :
    (registerHost 2 "c" {} stV "sv").emits =
      [⟨Target.toSocket "c", "viewer-count",
        Payload.viewerCountP sessV.viewers.length "sv" sessV.viewerInfo⟩] ∧
    ⟨Target.toSocket "c", "viewer-count",
      Payload.viewerCountP sessV.viewers.length "sv" sessV.viewerInfo⟩ ∈
        (joinController 2 "c" {} stV "sv").emits ∧
    ⟨Target.toSocket "c", "viewer-count",
      Payload.viewerCountP sessV.viewers.length "sv" sessV.viewerInfo⟩ ∈
        (joinMain 2 "c" {} stV "sv").emits ∧
    ⟨Target.toSocket "c", "viewer-count",
      Payload.viewerCountP sessV.viewers.length "sv" sessV.viewerInfo⟩ ∈
        (joinRoom 2 "c" {} stV "sv" "main").emits ∧
    (registerHost 7 "x" {} emptyCast "k").emits =
      [⟨Target.toSocket "x", "viewer-count", Payload.viewerCountP 0 "k" []⟩] ∧
    ⟨Target.toSocket "x", "viewer-count", Payload.viewerCountP 0 "k" []⟩ ∈
      (joinController 7 "x" {} emptyCast "k").emits ∧
    ⟨Target.toSocket "x", "viewer-count", Payload.viewerCountP 0 "k" []⟩ ∈
      (joinMain 7 "x" {} emptyCast "k").emits ∧
    (joinRoom 7 "x" {} emptyCast "k" "main").emits = [] ∧
    (joinRoom 2 "c" {} stV "sv" "spectator").emits = [] := by
  obtain ⟨h1, -, h3⟩ :=
    viewer_count_to_joiner 2 "c" {} stV "sv" "main" "spectator" (Or.inr rfl) (by decide)
  obtain ⟨-, g2, -⟩ :=
    viewer_count_to_joiner 7 "x" {} emptyCast "k" "main" "spectator" (Or.inr rfl) (by decide)
  obtain ⟨a1, a2, a3, a4⟩ := h1 sessV rfl
  obtain ⟨b1, b2, b3, b4⟩ := g2 rfl
  exact ⟨a1, a2, a3, a4, b1, b2, b3, b4, h3⟩

/-- Upserting an entry whose socket id already occurs leaves the list of
  socket ids unchanged (the first matching entry is replaced in
  place). -/
theorem upsertViewerInfo_map_of_mem (l : List ViewerData) (vd : ViewerData)
    (h : vd.socketId ∈ l.map (fun v => v.socketId)) :
    (upsertViewerInfo l vd).map (fun v => v.socketId) = l.map (fun v => v.socketId) := by
  induction l with
  | nil => simp at h
  | cons v rest ih =>
      by_cases hv : v.socketId = vd.socketId
      · simp [upsertViewerInfo, hv]
      · have h2 : vd.socketId ∈ rest.map (fun v => v.socketId) := by
          rcases List.mem_cons.mp h with h1 | h1
          · exact absurd h1.symm hv
          · exact h1
        simp [upsertViewerInfo, hv, ih h2]

/-- Upserting an entry whose socket id is absent appends it. -/
theorem upsertViewerInfo_of_not_mem (l : List ViewerData) (vd : ViewerData)
    (h : vd.socketId ∉ l.map (fun v => v.socketId)) :
    upsertViewerInfo l vd = l ++ [vd] := by
  induction l with
  | nil => rfl
  | cons v rest ih =>
      have hv : v.socketId ≠ vd.socketId := by
        intro he
        exact h (by simp [he])
      have h2 : vd.socketId ∉ rest.map (fun v => v.socketId) := by
        intro hm
        exact h (by simp [hm])
      simp [upsertViewerInfo, hv, ih h2]

/-- In a list of viewer entries whose socket ids enumerate exactly a
  duplicate-free list of viewers, each viewer id owns exactly one
  entry. -/
theorem filter_socketId_length_one (info : List ViewerData) (viewers : List String)
    (hmap : info.map (fun v => v.socketId) = viewers) (hnd : viewers.Nodup)
    (id : String) (hid : id ∈ viewers) :
    (info.filter (fun v => v.socketId == id)).length = 1 := by
  have h1 : (info.filter (fun v => v.socketId == id)).length =
      info.countP (fun v => v.socketId == id) :=
    (List.countP_eq_length_filter _ _).symm
  have h2 : (info.map (fun v => v.socketId)).countP (fun x => x == id) =
      info.countP (fun v => v.socketId == id) :=
    List.countP_map _ _ _
  have h3 : viewers.count id = 1 := List.count_eq_one_of_mem hnd hid
  rw [h1, ← h2, hmap, ← List.count_eq_countP, h3]

/-- Joining a room makes the socket a member of it. -/
theorem socketJoin_mem (st : CastState) (room socketId : String) :
    socketId ∈ (socketJoin st room socketId).rooms room := by
  simp only [socketJoin]
  by_cases h : socketId ∈ st.rooms room <;> simp [h]

/-- Claim C7: a viewer-joined event on a session present in the
  registry (whose viewer bookkeeping is in sync: viewerInfo enumerates
  exactly the duplicate-free viewers list) broadcasts to the whole room,
  the sending viewer included, a viewer-count event whose count equals
  the size of the updated viewers set and whose viewers list carries
  exactly one entry per distinct connection id in viewers. -/
theorem viewer_joined_broadcast_count (now : Nat) (socketId : String) (sock : SocketState)
    (st : CastState) (d : ViewerJoinedData) (s : Session)
    (hs : st.sessions d.sessionId = some s)
    (hmap : s.viewerInfo.map (fun v => v.socketId) = s.viewers)
    (hnd : s.viewers.Nodup) :
    ∃ s2 : Session,
      (viewerJoined now socketId sock st d).st.sessions d.sessionId = some s2 ∧
      (viewerJoined now socketId sock st d).emits =
        [⟨Target.toRoom d.sessionId, "viewer-count",
          Payload.viewerCountP s2.viewers.length d.sessionId s2.viewerInfo⟩,
         ⟨Target.toRoomExcept d.sessionId socketId, "viewer-joined",
          Payload.viewerJoinedP d⟩] ∧
      s2.viewers.Nodup ∧
      (∀ id ∈ s2.viewers, (s2.viewerInfo.filter (fun v => v.socketId == id)).length = 1) ∧
      (∀ v ∈ s2.viewerInfo, v.socketId ∈ s2.viewers) ∧
      socketId ∈ (viewerJoined now socketId sock st d).st.rooms d.sessionId := by
  have hrooms : (viewerJoined now socketId sock st d).st.rooms =
      (socketJoin st d.sessionId socketId).rooms := by
    simp [viewerJoined, hs, setSession]
  by_cases hm : socketId ∈ s.viewers
  · have hmm : (viewerEntry now socketId d).socketId ∈
        s.viewerInfo.map (fun v => v.socketId) := by
      show socketId ∈ s.viewerInfo.map (fun v => v.socketId)
      rw [hmap]
      exact hm
    have hmap2 :
        (upsertViewerInfo s.viewerInfo (viewerEntry now socketId d)).map
          (fun v => v.socketId) = s.viewers :=
      (upsertViewerInfo_map_of_mem s.viewerInfo (viewerEntry now socketId d) hmm).trans hmap
    refine ⟨{ s with
        viewers := s.viewers
        viewerInfo := upsertViewerInfo s.viewerInfo (viewerEntry now socketId d)
        lastUpdate := now }, ?_, ?_, ?_, ?_, ?_, ?_⟩
    · simp [viewerJoined, hs, hm, setSession]
    · simp [viewerJoined, hs, hm]
    · exact hnd
    · intro id hid
      exact filter_socketId_length_one _ _ hmap2 hnd id hid
    · intro v hv
      have hvm : v.socketId ∈
          (upsertViewerInfo s.viewerInfo (viewerEntry now socketId d)).map
            (fun v => v.socketId) :=
        List.mem_map_of_mem _ hv
      rw [hmap2] at hvm
      exact hvm
    · rw [hrooms]
      exact socketJoin_mem st d.sessionId socketId
  · have hnm : (viewerEntry now socketId d).socketId ∉
        s.viewerInfo.map (fun v => v.socketId) := by
      show socketId ∉ s.viewerInfo.map (fun v => v.socketId)
      rw [hmap]
      exact hm
    have hupd := upsertViewerInfo_of_not_mem s.viewerInfo (viewerEntry now socketId d) hnm
    have hmap2 :
        (upsertViewerInfo s.viewerInfo (viewerEntry now socketId d)).map
          (fun v => v.socketId) = s.viewers ++ [socketId] := by
      rw [hupd]
      simp [hmap]
      rfl
    have hnd2 : (s.viewers ++ [socketId]).Nodup := by
      simp [List.nodup_append, hnd, hm]
    refine ⟨{ s with
        viewers := s.viewers ++ [socketId]
        viewerInfo := upsertViewerInfo s.viewerInfo (viewerEntry now socketId d)
        lastUpdate := now }, ?_, ?_, ?_, ?_, ?_, ?_⟩
    · simp [viewerJoined, hs, hm, setSession]
    · simp [viewerJoined, hs, hm]
    · exact hnd2
    · intro id hid
      exact filter_socketId_length_one _ _ hmap2 hnd2 id hid
    · intro v hv
      have hvm : v.socketId ∈
          (upsertViewerInfo s.viewerInfo (viewerEntry now socketId d)).map
            (fun v => v.socketId) :=
        List.mem_map_of_mem _ hv
      rw [hmap2] at hvm
      exact hvm
    · rw [hrooms]
      exact socketJoin_mem st d.sessionId socketId

/-- Claim C7 witness: the theorem applied to the concrete state stP
  (session sp, empty viewer bookkeeping) and a concrete viewer. -/
theorem viewer_joined_broadcast_count_witness :
    ∃ s2 : Session,
      (viewerJoined 3 "w" {} stP ⟨"sp", some "vid", none, none, none, none⟩).st.sessions "sp" =
        some s2 ∧
      (viewerJoined 3 "w" {} stP ⟨"sp", some "vid", none, none, none, none⟩).emits =
        [⟨Target.toRoom "sp", "viewer-count",
          Payload.viewerCountP s2.viewers.length "sp" s2.viewerInfo⟩,
         ⟨Target.toRoomExcept "sp" "w", "viewer-joined",
          Payload.viewerJoinedP ⟨"sp", some "vid", none, none, none, none⟩⟩] ∧
      s2.viewers.Nodup ∧
      (∀ id ∈ s2.viewers, (s2.viewerInfo.filter (fun v => v.socketId == id)).length = 1) ∧
      (∀ v ∈ s2.viewerInfo, v.socketId ∈ s2.viewers) ∧
      "w" ∈ (viewerJoined 3 "w" {} stP ⟨"sp", some "vid", none, none, none, none⟩).st.rooms
        "sp" :=
  viewer_joined_broadcast_count 3 "w" {} stP ⟨"sp", some "vid", none, none, none, none⟩
    sessP rfl rfl List.nodup_nil

/-- Claim C8 (amended): when a host-tagged connection with a non-empty
  session key present in the registry disconnects, cast-stop is
  broadcast to the remaining members, currentFile, fileList and the
  host slot are cleared, a delayed re-check is scheduled, and the
  re-check deletes the session exactly when it still has no projector,
  no host and no main at fire time, being a no-op otherwise; the
  empty-string key is exempt because the disconnect dispatch treats a
  falsy session tag as no tag. -/
theorem host_disconnect_cleanup (socketId : String) (sock : SocketState)
    (st : CastState) (sid : String) (s : Session)
    (h0 : sid ≠ "") (h1 : sock.sessionId = some sid) (h2 : sock.role = some Role.host)
    (hs : st.sessions sid = some s) :
    (onDisconnect socketId sock st).emits =
      [⟨Target.toRoomExcept sid socketId, "cast-stop", Payload.empty⟩] ∧
    (onDisconnect socketId sock st).st.sessions sid =
      some { s with currentFile := none, fileList := [], host := none } ∧
    (onDisconnect socketId sock st).pending = [sid] ∧
    (∀ st2 : CastState, ∀ s2 : Session, st2.sessions sid = some s2 →
      (s2.projector = none → s2.host = none → s2.main = none →
        (hostRecheck st2 sid).sessions sid = none) ∧
      (¬(s2.projector = none ∧ s2.host = none ∧ s2.main = none) →
        hostRecheck st2 sid = st2)) := by
  refine ⟨?_, ?_, ?_, ?_⟩
  · simp [onDisconnect, h0, h1, h2, hs]
  · simp [onDisconnect, h0, h1, h2, hs, setSession]
  · simp [onDisconnect, h0, h1, h2, hs]
  · intro st2 s2 hs2
    constructor
    · intro hp hh hmn
      simp [hostRecheck, hs2, hp, hh, hmn, deleteSession]
    · intro hneg
      simp only [hostRecheck, hs2]
      rw [if_neg hneg]

/-- Claim C8 witness: the theorem applied to the concrete state stP
  with a host-tagged socket h, together with the re-check applied to a
  state whose session is empty of all three roles and to one whose
  projector is populated. -/
theorem host_disconnect_cleanup_witness :
    (onDisconnect "h" ⟨some "sp", some Role.host, none, none⟩ stP).emits =
      [⟨Target.toRoomExcept "sp" "h", "cast-stop", Payload.empty⟩] ∧
    (onDisconnect "h" ⟨some "sp", some Role.host, none, none⟩ stP).st.sessions "sp" =
      some { sessP with currentFile := none, fileList := [], host := none } ∧
    (onDisconnect "h" ⟨some "sp", some Role.host, none, none⟩ stP).pending = ["sp"] ∧
    (∀ st2 : CastState, ∀ s2 : Session, st2.sessions "sp" = some s2 →
      (s2.projector = none → s2.host = none → s2.main = none →
        (hostRecheck st2 "sp").sessions "sp" = none) ∧
      (¬(s2.projector = none ∧ s2.host = none ∧ s2.main = none) →
        hostRecheck st2 "sp" = st2)) :=
  host_disconnect_cleanup "h" ⟨some "sp", some Role.host, none, none⟩ stP "sp" sessP
    (by decide) rfl rfl rfl

/-- Claim C9 (amended): a connection that joined as projector for a
  session under a non-empty key keeps its projector tag even after
  another connection displaces it from the projector slot, so the stale
  former projector's disconnect still broadcasts projector-disconnected
  and deletes the session although its projector slot names the newer
  connection; the empty-string key is exempt because the disconnect
  dispatch treats a falsy session tag as no tag. -/
theorem stale_projector_disconnect_destroys_session (now1 now2 : Nat) (a b : String)
    (st0 : CastState) (sid : String) (sockA0 sockB0 : SocketState)
    (hab : a ≠ b) (hsid : sid ≠ "") :
    (joinProjector now1 a sockA0 st0 sid).sock.sessionId = some sid ∧
    (joinProjector now1 a sockA0 st0 sid).sock.role = some Role.projector ∧
    (∃ s : Session,
      (joinProjector now2 b sockB0 (joinProjector now1 a sockA0 st0 sid).st
          sid).st.sessions sid = some s ∧
      s.projector = some b ∧ s.projector ≠ some a) ∧
    (onDisconnect a (joinProjector now1 a sockA0 st0 sid).sock
        (joinProjector now2 b sockB0 (joinProjector now1 a sockA0 st0 sid).st
          sid).st).st.sessions sid = none ∧
    (onDisconnect a (joinProjector now1 a sockA0 st0 sid).sock
        (joinProjector now2 b sockB0 (joinProjector now1 a sockA0 st0 sid).st
          sid).st).emits =
      [⟨Target.toRoomExcept sid a, "projector-disconnected", Payload.empty⟩] := by
  have hsock : (joinProjector now1 a sockA0 st0 sid).sock =
      { sockA0 with sessionId := some sid, role := some Role.projector } := rfl
  set stMid := (joinProjector now1 a sockA0 st0 sid).st with hMid
  have hone : ∃ s1 : Session, stMid.sessions sid = some s1 := by
    rw [hMid]
    cases h0 : st0.sessions sid with
    | none =>
        exact ⟨{ freshSession now1 with projector := some a },
          by simp [joinProjector, h0, setSession, socketJoin]⟩
    | some s0 =>
        exact ⟨{ s0 with projector := some a, lastUpdate := now1 },
          by simp [joinProjector, h0, setSession, socketJoin]⟩
  obtain ⟨s1, hs1⟩ := hone
  have hs2 : (joinProjector now2 b sockB0 stMid sid).st.sessions sid =
      some { s1 with projector := some b, lastUpdate := now2 } := by
    simp [joinProjector, hs1, setSession, socketJoin]
  refine ⟨rfl, rfl, ⟨_, hs2, rfl, ?_⟩, ?_, ?_⟩
  · intro h
    exact hab (Option.some.inj h).symm
  · rw [hsock]
    simp [onDisconnect, hsid, hs2, deleteSession]
  · rw [hsock]
    simp [onDisconnect, hsid, hs2]

/-- Claim C9 witness: the theorem applied to concrete connections pa
  and pb racing for session s9 over the empty registry. -/
theorem stale_projector_disconnect_destroys_session_witness :
    (joinProjector 1 "pa" {} emptyCast "s9").sock.sessionId = some "s9" ∧
    (joinProjector 1 "pa" {} emptyCast "s9").sock.role = some Role.projector ∧
    (∃ s : Session,
      (joinProjector 2 "pb" {} (joinProjector 1 "pa" {} emptyCast "s9").st
          "s9").st.sessions "s9" = some s ∧
      s.projector = some "pb" ∧ s.projector ≠ some "pa") ∧
    (onDisconnect "pa" (joinProjector 1 "pa" {} emptyCast "s9").sock
        (joinProjector 2 "pb" {} (joinProjector 1 "pa" {} emptyCast "s9").st
          "s9").st).st.sessions "s9" = none ∧
    (onDisconnect "pa" (joinProjector 1 "pa" {} emptyCast "s9").sock
        (joinProjector 2 "pb" {} (joinProjector 1 "pa" {} emptyCast "s9").st
          "s9").st).emits =
      [⟨Target.toRoomExcept "s9" "pa", "projector-disconnected", Payload.empty⟩] :=
  stale_projector_disconnect_destroys_session 1 2 "pa" "pb" emptyCast "s9" {} {}
    (by decide) (by decide)

/-- Claim C3 counterexample: a projector-tagged connection whose tagged
  session key is the empty string (a key the registry does hold) hits
  the falsy truthiness guard on disconnect: nothing is broadcast, the
  session survives, and a subsequent ping-projector still answers
  projector-ready. -/
theorem projector_disconnect_empty_key_no_delete :
    stEmptyKeyP.sessions "" = some sessEmptyKeyP ∧
    (onDisconnect "e" ⟨some "", some Role.projector, none, none⟩ stEmptyKeyP).st.sessions ""
      = some sessEmptyKeyP ∧
    (onDisconnect "e" ⟨some "", some Role.projector, none, none⟩ stEmptyKeyP).emits = [] ∧
    pingProjector 1 "q"
        (onDisconnect "e" ⟨some "", some Role.projector, none, none⟩ stEmptyKeyP).st "" =
      [⟨Target.toSocket "q", "projector-ready", Payload.sessionTs "" 1⟩] :=
  ⟨rfl, rfl, rfl, rfl⟩

/-- Claim C8 counterexample: a host-tagged connection whose tagged
  session key is the empty string (a key the registry does hold) hits
  the falsy truthiness guard on disconnect: no cast-stop is broadcast,
  currentFile, fileList and the host slot are untouched, and no delayed
  re-check is scheduled. -/
theorem host_disconnect_empty_key_no_cleanup :
    stEmptyKeyH.sessions "" = some sessEmptyKeyH ∧
    sessEmptyKeyH.currentFile = some ⟨"u", "f", 0, 1⟩ ∧
    (onDisconnect "h" ⟨some "", some Role.host, none, none⟩ stEmptyKeyH).st.sessions ""
      = some sessEmptyKeyH ∧
    (onDisconnect "h" ⟨some "", some Role.host, none, none⟩ stEmptyKeyH).emits = [] ∧
    (onDisconnect "h" ⟨some "", some Role.host, none, none⟩ stEmptyKeyH).pending = [] :=
  ⟨rfl, rfl, rfl, rfl, rfl⟩

/-- Claim C9 counterexample: under the empty-string session key, the
  displaced former projector's disconnect does not destroy the session
  (the truthiness guard skips the whole disconnect dispatch), so the
  claimed unconditional destruction fails for that key. -/
theorem stale_projector_empty_key_no_destroy :
    (joinProjector 1 "pa" {} emptyCast "").sock.sessionId = some "" ∧
    (joinProjector 1 "pa" {} emptyCast "").sock.role = some Role.projector ∧
    (onDisconnect "pa" (joinProjector 1 "pa" {} emptyCast "").sock
        (joinProjector 2 "pb" {} (joinProjector 1 "pa" {} emptyCast "").st
          "").st).st.sessions "" =
      some { freshSession 1 with projector := some "pb", lastUpdate := 2 } ∧
    (onDisconnect "pa" (joinProjector 1 "pa" {} emptyCast "").sock
        (joinProjector 2 "pb" {} (joinProjector 1 "pa" {} emptyCast "").st
          "").st).emits = [] :=
  ⟨rfl, rfl, rfl, rfl⟩
